import Mathlib

/-!
Verification of the napari Labels-layer Qt controls panel
(`napari/_qt/layers/qt_labels_layer.py`).

The panel is presentation glue binding Qt widgets to the mutable state of a
Labels layer model.  We embed each handler of `QtLabelsControls` and the
`QtColorBox.paintEvent` routine as pure Lean functions over explicit state
records, translating the Python source line by line.  External collaborators
that the repository keeps outside this file (the `Mode` enumeration, the
event emitter and its blocker, `disable_with_opacity`, the string form of a
mode) are modelled from the specification and marked as such in their doc
comments.
-/

namespace NapariLabels

/-- Modelled from the spec: the `Mode` enumeration of
`napari.layers.labels._constants` is not under src/.  The spec recognizes the
four values PAN_ZOOM, PICKER, PAINT, FILL and notes the enumeration "could in
principle be extended", so the carrier has the four recognized values plus an
extension constructor for any other value. -/
inductive ModeVal
  | pan_zoom
  | picker
  | paint
  | fill
  | other (s : String)
deriving DecidableEq

/-- Checked state of the four mode radio buttons of `QtLabelsControls`
(`panzoom_button`, `pick_button`, `paint_button`, `fill_button`). -/
structure ButtonsState where
  panzoom_button : Bool
  pick_button : Bool
  paint_button : Bool
  fill_button : Bool
deriving DecidableEq

/-- `panzoom_button.setChecked(True)`.  The four buttons live in one
`QButtonGroup` (exclusive by default; the spec calls them "four mutually
exclusive selector controls"), so checking one unchecks the other three. -/
def checkPanzoom (_bs : ButtonsState) : ButtonsState :=
  ⟨true, false, false, false⟩

/-- `pick_button.setChecked(True)` in the exclusive button group. -/
def checkPick (_bs : ButtonsState) : ButtonsState :=
  ⟨false, true, false, false⟩

/-- `paint_button.setChecked(True)` in the exclusive button group. -/
def checkPaint (_bs : ButtonsState) : ButtonsState :=
  ⟨false, false, true, false⟩

/-- `fill_button.setChecked(True)` in the exclusive button group. -/
def checkFill (_bs : ButtonsState) : ButtonsState :=
  ⟨false, false, false, true⟩

/-- `QtLabelsControls._on_mode_change`: dispatch on `event.mode` through the
if/elif chain of the source, checking the matching button, and raising
`ValueError("Mode not recognized")` on any other value.  The error branch
returns no new button state: the handler aborts without selecting a default. -/
def on_mode_change (mode : ModeVal) (bs : ButtonsState) :
    Except String ButtonsState :=
  if mode = ModeVal.pan_zoom then Except.ok (checkPanzoom bs)
  else if mode = ModeVal.picker then Except.ok (checkPick bs)
  else if mode = ModeVal.paint then Except.ok (checkPaint bs)
  else if mode = ModeVal.fill then Except.ok (checkFill bs)
  else Except.error "Mode not recognized"

/-- Number of checked buttons in a button state. -/
def numChecked (bs : ButtonsState) : ℕ :=
  (if bs.panzoom_button then 1 else 0) + (if bs.pick_button then 1 else 0) +
    (if bs.paint_button then 1 else 0) + (if bs.fill_button then 1 else 0)

/-- Python `int()` applied to a numeric value: truncation toward zero. -/
def pyInt (q : ℚ) : ℤ :=
  if 0 ≤ q then ⌊q⌋ else ⌈q⌉

/-- `np.clip(x, lo, hi)`, equivalent to `min(hi, max(x, lo))` per the numpy
documentation. -/
def npClip (x lo hi : ℤ) : ℤ :=
  min hi (max x lo)

/-- `QtLabelsControls._on_brush_size_change`: the value written to the brush
size slider is `np.clip(int(value), 1, 40)` where `value` is the model's
`brush_size`. -/
def on_brush_size_change (brush_size : ℚ) : ℤ :=
  npClip (pyInt brush_size) 1 40

/-- Stated from the claim's words, for comparison with
`on_brush_size_change`: the display rule `clamp(round-to-int(v), 1, 40)` with
round-to-int as rounding to the nearest integer. -/
def brushDisplayClaim (v : ℚ) : ℤ :=
  npClip (round v) 1 40

/-- C1: for every one of the four recognized mode values, `_on_mode_change`
sets exactly the matching mode button checked; any state with exactly one
checked button is one of these four outcomes, so after the change settles
exactly one of the four buttons is active and the other three inactive. -/
theorem on_mode_change_exactly_one (bs : ButtonsState) :
    on_mode_change ModeVal.pan_zoom bs = Except.ok ⟨true, false, false, false⟩ ∧
    on_mode_change ModeVal.picker bs = Except.ok ⟨false, true, false, false⟩ ∧
    on_mode_change ModeVal.paint bs = Except.ok ⟨false, false, true, false⟩ ∧
    on_mode_change ModeVal.fill bs = Except.ok ⟨false, false, false, true⟩ ∧
    (∀ r : ButtonsState, numChecked r = 1 ↔
      (r = ⟨true, false, false, false⟩ ∨ r = ⟨false, true, false, false⟩ ∨
       r = ⟨false, false, true, false⟩ ∨ r = ⟨false, false, false, true⟩)) := by
  refine ⟨rfl, rfl, rfl, rfl, ?_⟩
  intro r
  obtain ⟨a, b, c, d⟩ := r
  cases a <;> cases b <;> cases c <;> cases d <;> decide

/-- C4: for every mode value that is none of the four recognized values,
`_on_mode_change` raises `ValueError("Mode not recognized")` and returns no
button state (no default is selected); for each of the four recognized values
it does not raise. -/
theorem mode_not_recognized (bs : ButtonsState) (m : ModeVal)
    (h1 : m ≠ ModeVal.pan_zoom) (h2 : m ≠ ModeVal.picker)
    (h3 : m ≠ ModeVal.paint) (h4 : m ≠ ModeVal.fill) :
    on_mode_change m bs = Except.error "Mode not recognized" ∧
    (∀ m2 : ModeVal,
      (m2 = ModeVal.pan_zoom ∨ m2 = ModeVal.picker ∨
       m2 = ModeVal.paint ∨ m2 = ModeVal.fill) →
      ∃ r, on_mode_change m2 bs = Except.ok r) := by
  constructor
  · cases m with
    | pan_zoom => exact absurd rfl h1
    | picker => exact absurd rfl h2
    | paint => exact absurd rfl h3
    | fill => exact absurd rfl h4
    | other s => rfl
  · intro m2 h
    rcases h with h | h | h | h <;> subst h <;> exact ⟨_, rfl⟩

/-- Witness for C4 at the concrete unrecognized value `other "TRANSFORM"`. -/
theorem mode_not_recognized_witness :
    on_mode_change (ModeVal.other "TRANSFORM") ⟨true, false, false, false⟩ =
      Except.error "Mode not recognized" :=
  (mode_not_recognized ⟨true, false, false, false⟩ (ModeVal.other "TRANSFORM")
    (by decide) (by decide) (by decide) (by decide)).1

/-- C2 counterexample: at model brush size 1.7 the code writes
`clip(int(1.7), 1, 40) = 1` to the slider, while the claim's formula
`clamp(round-to-int(1.7), 1, 40)` gives 2. -/
theorem brush_size_round_cex :
    on_brush_size_change (17 / 10) = 1 ∧
    brushDisplayClaim (17 / 10) = 2 ∧
    on_brush_size_change (17 / 10) ≠ brushDisplayClaim (17 / 10) := by
  have hf : (⌊(17 / 10 : ℚ)⌋ : ℤ) = 1 := by norm_num
  have hr : round (17 / 10 : ℚ) = 2 := by
    rw [round_eq]; norm_num
  refine ⟨?_, ?_, ?_⟩ <;>
    simp [on_brush_size_change, brushDisplayClaim, pyInt, npClip, hf, hr] <;>
    norm_num

/-- C2 corrected: the value written to the slider is `clip(int(v), 1, 40)`
where `int` is Python truncation toward zero, not rounding to the nearest
integer; the claim's examples still hold: v = 0.4 displays as 1, v = 40.9
displays as 40, v = 15 displays as 15. -/
theorem brush_size_display (v : ℚ) :
    on_brush_size_change v = min 40 (max 1 (pyInt v)) ∧
    1 ≤ on_brush_size_change v ∧ on_brush_size_change v ≤ 40 ∧
    on_brush_size_change (2 / 5) = 1 ∧
    on_brush_size_change (409 / 10) = 40 ∧
    on_brush_size_change 15 = 15 := by
  refine ⟨by rw [on_brush_size_change, npClip, max_comm], ?_, ?_, ?_, ?_, ?_⟩
  · show 1 ≤ npClip (pyInt v) 1 40
    rw [npClip]; omega
  · show npClip (pyInt v) 1 40 ≤ 40
    rw [npClip]; omega
  · norm_num [on_brush_size_change, npClip, pyInt]
  · norm_num [on_brush_size_change, npClip, pyInt]
  · norm_num [on_brush_size_change, npClip, pyInt]

/-- Maximum configured on the selection spinbox
(`selectionSpinBox.setMaximum(2147483647)`). -/
def QSPINBOX_MAX : ℤ := 2147483647

/-- `selectionSpinBox.setValue(v)`: a Qt spinbox clamps the written value to
its configured range; the constructor sets minimum 0 and maximum 2147483647. -/
def spinboxSetValue (v : ℤ) : ℤ :=
  min QSPINBOX_MAX (max 0 v)

/-- Joint state of the layer's `selected_label`, the selection spinbox, and
two observation counters: how many writes of `selected_label` reached the
model and how many times the outbound handler `changeSelection` ran. -/
structure SelState where
  selected_label : ℚ
  spinbox_value : ℤ
  model_writes : ℕ
  outbound_invocations : ℕ
deriving DecidableEq

/-- `QtLabelsControls._on_selection_change`: inside the event blocker, write
`int(self.layer.selected_label)` into the selection spinbox.  The outbound
handler is not run, so neither counter moves. -/
def on_selection_change (s : SelState) : SelState :=
  { s with spinbox_value := spinboxSetValue (pyInt s.selected_label) }

/-- `QtLabelsControls.changeSelection`: the outbound handler writes the
spinbox value into `self.layer.selected_label` (one model write, one
outbound invocation). -/
def changeSelection (s : SelState) (value : ℤ) : SelState :=
  { s with
    selected_label := (value : ℚ)
    model_writes := s.model_writes + 1
    outbound_invocations := s.outbound_invocations + 1 }

/-- Modelled from the spec: the napari event emitter and its blocker
(`layer.events.selected_label`) are not under src/.  Writing
`selected_label` on the model notifies the registered inbound handler
`_on_selection_change`; per the spec the blocker suppresses the outbound
change notification while the inbound handler writes the spinbox, so
`changeSelection` is not re-invoked during the round trip. -/
def setSelectedLabel (s : SelState) (v : ℚ) : SelState :=
  on_selection_change
    { s with selected_label := v, model_writes := s.model_writes + 1 }

/-- C3: after writing selected_label = 5 on the model, the spinbox holds 5,
and during the inbound update the outbound handler `changeSelection` is not
re-invoked: exactly the one original model write happens, no duplicate. -/
theorem selection_round_trip (s : SelState) :
    (setSelectedLabel s 5).spinbox_value = 5 ∧
    (setSelectedLabel s 5).selected_label = 5 ∧
    (setSelectedLabel s 5).outbound_invocations = s.outbound_invocations ∧
    (setSelectedLabel s 5).model_writes = s.model_writes + 1 := by
  have h5 : (⌊(5 : ℚ)⌋ : ℤ) = 5 := by norm_num
  refine ⟨?_, rfl, rfl, rfl⟩
  show spinboxSetValue (pyInt 5) = 5
  simp [pyInt, spinboxSetValue, QSPINBOX_MAX, h5]

/-- C10: for every in-range value of the layer's `selected_label`, including
non-integer values, `_on_selection_change` writes `int(selected_label)` into
the spinbox, and for nonnegative values `int` is the floor, i.e. truncation
of the fractional part rather than rounding. -/
theorem selection_truncates (s : SelState) (v : ℚ) (h0 : 0 ≤ v)
    (h1 : v ≤ (QSPINBOX_MAX : ℚ)) :
    (on_selection_change { s with selected_label := v }).spinbox_value =
      pyInt v ∧
    pyInt v = ⌊v⌋ := by
  have hp : pyInt v = ⌊v⌋ := if_pos h0
  refine ⟨?_, hp⟩
  show spinboxSetValue (pyInt v) = pyInt v
  rw [hp, spinboxSetValue]
  have hge : (0 : ℤ) ≤ ⌊v⌋ := Int.floor_nonneg.mpr h0
  have hle : ⌊v⌋ ≤ QSPINBOX_MAX := by
    have := Int.floor_le_floor h1
    rwa [Int.floor_intCast] at this
  omega

/-- Witness for C10 at selected_label = 2.7: the spinbox displays 2
(truncation), not 3 (rounding). -/
theorem selection_truncates_witness :
    (on_selection_change ⟨27 / 10, 0, 0, 0⟩).spinbox_value = 2 := by
  have h := selection_truncates ⟨27 / 10, 0, 0, 0⟩ (27 / 10) (by norm_num)
    (by norm_num [QSPINBOX_MAX])
  have hf : (⌊(27 / 10 : ℚ)⌋ : ℤ) = 2 := by norm_num
  exact h.1.trans (h.2.trans hf)

/-- An RGB color with fractional channels, as the layer model's derived
`_selected_color` (per the spec a three-channel fractional triple or none). -/
structure ColorRGB where
  r : ℚ
  g : ℚ
  b : ℚ

/-- A rectangle passed to `painter.drawRect(x, y, w, h)`. -/
abbrev Rect := ℕ × ℕ × ℕ × ℕ

/-- An 8-bit-per-channel color triple passed to `QColor`. -/
abbrev RGB := ℤ × ℤ × ℤ

/-- The light checkerboard color `QColor(230, 230, 230)`. -/
def lightGray : RGB := (230, 230, 230)

/-- The dark checkerboard color `QColor(25, 25, 25)`. -/
def darkGray : RGB := (25, 25, 25)

/-- The color of checkerboard cell (i, j) per the source condition
`(i % 2 == 0 and j % 2 == 0) or (i % 2 == 1 and j % 2 == 1)`. -/
def checkerCellColor (i j : ℕ) : RGB :=
  if (i % 2 = 0 ∧ j % 2 = 0) ∨ (i % 2 = 1 ∧ j % 2 = 1) then lightGray
  else darkGray

/-- `QtColorBox._height = 24`, the fixed width and height of the swatch. -/
def boxHeight : ℕ := 24

/-- The checkerboard branch of `QtColorBox.paintEvent`: for i and j in
`range(self._height // 4)`, draw a 5-by-5 rectangle at (i*4, j*4) in the
cell's color. -/
def checkerRects : List (Rect × RGB) :=
  (List.range (boxHeight / 4)).flatMap fun i =>
    (List.range (boxHeight / 4)).map fun j =>
      ((i * 4, j * 4, 5, 5), checkerCellColor i j)

/-- `QtColorBox.paintEvent` as the list of filled rectangles it draws: a
checkerboard when `layer._selected_color is None`, otherwise one full-swatch
rectangle in `(255 * color).astype(int)` — numpy's `astype(int)` truncates
each channel toward zero. -/
def paintEvent (sel : Option ColorRGB) : List (Rect × RGB) :=
  match sel with
  | none => checkerRects
  | some c => [((0, 0, boxHeight, boxHeight),
      (pyInt (255 * c.r), pyInt (255 * c.g), pyInt (255 * c.b)))]

/-- Stated from the claim's words, for comparison with `paintEvent`: the
solid fill with each 8-bit channel computed as round(255 × channel). -/
def paintEventClaim (sel : Option ColorRGB) : List (Rect × RGB) :=
  match sel with
  | none => checkerRects
  | some c => [((0, 0, boxHeight, boxHeight),
      (round (255 * c.r), round (255 * c.g), round (255 * c.b)))]

/-- C5 counterexample: at derived color (0.5, 0, 0) the code draws channel
triple (127, 0, 0) (truncation of 127.5), while the claim's round formula
gives (128, 0, 0). -/
theorem color_round_cex :
    paintEvent (some ⟨1 / 2, 0, 0⟩) = [((0, 0, 24, 24), (127, 0, 0))] ∧
    paintEventClaim (some ⟨1 / 2, 0, 0⟩) = [((0, 0, 24, 24), (128, 0, 0))] ∧
    paintEvent (some ⟨1 / 2, 0, 0⟩) ≠ paintEventClaim (some ⟨1 / 2, 0, 0⟩) := by
  have h1 : paintEvent (some ⟨1 / 2, 0, 0⟩) = [((0, 0, 24, 24), (127, 0, 0))] := by
    norm_num [paintEvent, pyInt, boxHeight]
  have h2 : paintEventClaim (some ⟨1 / 2, 0, 0⟩) =
      [((0, 0, 24, 24), (128, 0, 0))] := by
    norm_num [paintEventClaim, round_eq, boxHeight]
  refine ⟨h1, h2, ?_⟩
  rw [h1, h2]
  simp

/-- C5 corrected: when the derived color is present, the paint routine fills
the entire 24-by-24 swatch with a single solid color whose 8-bit channels
are `int(255 × channel)` — truncation toward zero, which for nonnegative
fractional channels is the floor, not rounding to nearest; the derived color
(1.0, 0.0, 0.0) still yields (255, 0, 0). -/
theorem paint_solid_trunc (c : ColorRGB)
    (hr : 0 ≤ c.r) (hg : 0 ≤ c.g) (hb : 0 ≤ c.b) :
    paintEvent (some c) =
      [((0, 0, boxHeight, boxHeight),
        (⌊255 * c.r⌋, ⌊255 * c.g⌋, ⌊255 * c.b⌋))] := by
  simp only [paintEvent, pyInt]
  rw [if_pos (mul_nonneg (by norm_num) hr),
    if_pos (mul_nonneg (by norm_num) hg),
    if_pos (mul_nonneg (by norm_num) hb)]

/-- Witness for C5 at the derived color (1.0, 0.0, 0.0): the swatch is one
solid full-size rectangle with channel triple (255, 0, 0). -/
theorem paint_solid_trunc_witness :
    paintEvent (some ⟨1, 0, 0⟩) = [((0, 0, 24, 24), (255, 0, 0))] := by
  have h := paint_solid_trunc ⟨1, 0, 0⟩ (by norm_num) (by norm_num) (by norm_num)
  norm_num [boxHeight] at h
  exact h

/-- C6: with no derived color the paint routine tiles the fixed swatch on a
4-pixel cell grid (6 by 6 cells for the 24-pixel swatch), every cell in one
of exactly two fixed colors, and cell (i, j) is the light color if and only
if i and j have equal parity. -/
theorem checkerboard_pattern :
    paintEvent none = checkerRects ∧
    checkerRects.length = 36 ∧
    lightGray ≠ darkGray ∧
    ∀ i j : Fin 6,
      ((i.val * 4, j.val * 4, 5, 5), checkerCellColor i.val j.val) ∈
        checkerRects ∧
      (checkerCellColor i.val j.val = lightGray ↔ i.val % 2 = j.val % 2) ∧
      (checkerCellColor i.val j.val = lightGray ∨
        checkerCellColor i.val j.val = darkGray) := by
  refine ⟨rfl, by decide, by decide, by decide⟩

/-- Enabled state of the four mode buttons (a disabled Qt widget does not
accept input events). -/
structure EnabledState where
  panzoom_enabled : Bool
  pick_enabled : Bool
  paint_enabled : Bool
  fill_enabled : Bool
deriving DecidableEq

/-- Modelled from the spec: `disable_with_opacity` (in `napari._qt.utils`,
not under src/) sets each named widget enabled exactly when the flag is
true; disabling visually dims the widget and blocks input on it. -/
def disable_with_opacity (s : EnabledState) (flag : Bool) : EnabledState :=
  { s with pick_enabled := flag, paint_enabled := flag, fill_enabled := flag }

/-- `QtLabelsControls._on_editable_change`: calls `disable_with_opacity` on
`pick_button`, `paint_button` and `fill_button` with `self.layer.editable`. -/
def on_editable_change (s : EnabledState) (editable : Bool) : EnabledState :=
  disable_with_opacity s editable

/-- C7: with editable = false the handler disables the pick, paint and fill
buttons while leaving the pan/zoom button as it was; running it again with
editable = true re-enables all three, still leaving pan/zoom untouched. -/
theorem editable_change (s : EnabledState) :
    (on_editable_change s false).pick_enabled = false ∧
    (on_editable_change s false).paint_enabled = false ∧
    (on_editable_change s false).fill_enabled = false ∧
    (on_editable_change s false).panzoom_enabled = s.panzoom_enabled ∧
    (on_editable_change (on_editable_change s false) true).pick_enabled = true ∧
    (on_editable_change (on_editable_change s false) true).paint_enabled = true ∧
    (on_editable_change (on_editable_change s false) true).fill_enabled = true ∧
    (on_editable_change (on_editable_change s false) true).panzoom_enabled =
      s.panzoom_enabled :=
  ⟨rfl, rfl, rfl, rfl, rfl, rfl, rfl, rfl⟩

/-- The part of the layer state visible to the panel: the mode, the status
text, and the other mirrored properties. -/
structure PanelState where
  mode : ModeVal
  status : String
  selected_label : ℚ
  brush_size : ℚ
  contiguous : Bool
  n_dimensional : Bool
  editable : Bool

/-- Modelled from the spec: the string form of a mode, as `str(layer.mode)`;
the Mode enumeration's string conversion is not under src/. -/
def modeStr : ModeVal → String
  | ModeVal.pan_zoom => "pan_zoom"
  | ModeVal.picker => "picker"
  | ModeVal.paint => "paint"
  | ModeVal.fill => "fill"
  | ModeVal.other s => s

/-- `QtLabelsControls.mouseMoveEvent`: on mouse move, set
`self.layer.status = str(self.layer.mode)`. -/
def mouseMoveEvent (s : PanelState) : PanelState :=
  { s with status := modeStr s.mode }

/-- C8: the mouse-move handler sets the layer's status text to exactly the
string form of the layer's current mode and changes no other field. -/
theorem mouse_move_status (s : PanelState) :
    (mouseMoveEvent s).status = modeStr s.mode ∧
    (mouseMoveEvent s).mode = s.mode ∧
    (mouseMoveEvent s).selected_label = s.selected_label ∧
    (mouseMoveEvent s).brush_size = s.brush_size ∧
    (mouseMoveEvent s).contiguous = s.contiguous ∧
    (mouseMoveEvent s).n_dimensional = s.n_dimensional ∧
    (mouseMoveEvent s).editable = s.editable :=
  ⟨rfl, rfl, rfl, rfl, rfl, rfl, rfl⟩

/-- The three check states of a Qt checkbox: unchecked, the tristate middle
state, and fully checked (`Qt.Checked`). -/
inductive CheckState
  | unchecked
  | mixed
  | checked
deriving DecidableEq

/-- The two boolean layer flags mirrored by the checkboxes. -/
structure LayerFlags where
  contiguous : Bool
  n_dimensional : Bool
deriving DecidableEq

/-- `QtLabelsControls.change_contig`: `layer.contiguous = (state == Qt.Checked)`
via the source's if/else. -/
def change_contig (s : LayerFlags) (state : CheckState) : LayerFlags :=
  if state = CheckState.checked then { s with contiguous := true }
  else { s with contiguous := false }

/-- `QtLabelsControls.change_ndim`: `layer.n_dimensional = (state == Qt.Checked)`
via the source's if/else. -/
def change_ndim (s : LayerFlags) (state : CheckState) : LayerFlags :=
  if state = CheckState.checked then { s with n_dimensional := true }
  else { s with n_dimensional := false }

/-- C9: each outbound checkbox handler sets its layer boolean to true exactly
when the state is fully checked; every other state, the tristate middle one
included, sets it to false, and neither handler touches the other flag. -/
theorem change_flags (s : LayerFlags) (st : CheckState) :
    ((change_contig s st).contiguous = true ↔ st = CheckState.checked) ∧
    ((change_ndim s st).n_dimensional = true ↔ st = CheckState.checked) ∧
    (change_contig s CheckState.mixed).contiguous = false ∧
    (change_ndim s CheckState.mixed).n_dimensional = false ∧
    (change_contig s st).n_dimensional = s.n_dimensional ∧
    (change_ndim s st).contiguous = s.contiguous := by
  cases st <;> simp [change_contig, change_ndim]

end NapariLabels
